import Mathlib

/-!
Verification of the conversation state and message-rendering core of the
WeyAI search-chat application (`src/components/SearchChatApp.jsx`, plus an
earlier unnamed variant of the same component).

The JavaScript source is shallowly embedded: strings are Lean `String`s
(scanned as `List Char`), `Date` objects carry their epoch-millisecond
value, `localStorage` is an explicit `Option StoredEntry` threaded through
the persistence functions, and the two external HTTP collaborators are
modelled as `Except String _` outcomes passed to the orchestration function.
-/

/-- JavaScript `\w` character class: `[A-Za-z0-9_]`. -/
def isWordChar (c : Char) : Bool :=
  (('a' ≤ c && c ≤ 'z') || ('A' ≤ c && c ≤ 'Z') || ('0' ≤ c && c ≤ '9') || c = '_')

/-- JavaScript `\s` character class (also the set removed by
`String.prototype.trim`): whitespace and line terminators. -/
def isJsSpace (c : Char) : Bool :=
  (c = ' ' || c = '\t' || c = '\n' || c = '\x0b' || c = '\x0c' || c = '\r' ||
   c.toNat = 0xa0 || c.toNat = 0x1680 || (0x2000 ≤ c.toNat && c.toNat ≤ 0x200a) ||
   c.toNat = 0x2028 || c.toNat = 0x2029 || c.toNat = 0x202f || c.toNat = 0x205f ||
   c.toNat = 0x3000 || c.toNat = 0xfeff)

/-- JavaScript `String.prototype.trim`: drop leading and trailing whitespace. -/
def jsTrim (cs : List Char) : List Char :=
  ((cs.dropWhile isJsSpace).reverse.dropWhile isJsSpace).reverse

/-- `trim` on whole strings, as used on the input value and AI completion. -/
def jsTrimString (s : String) : String :=
  (jsTrim s.data).asString

/-- JavaScript `String.prototype.includes`: substring containment. -/
def hasSubstr (needle : List Char) : List Char → Bool
  | [] => needle.isEmpty
  | c :: rest => List.isPrefixOf needle (c :: rest) || hasSubstr needle rest

/-- `haystack.includes(needle)` on strings. -/
def jsIncludes (hay needle : String) : Bool :=
  hasSubstr needle.data hay.data

/-- Output alphabet of `detectCodeBlocks`: the `parts` entries
`{type: 'text', content}` and `{type: 'code', language, content}`. -/
inductive Segment where
  | text (content : String)
  | code (language : String) (content : String)
deriving DecidableEq, Repr

/-- The backtick character, U+0060. -/
def backtick : Char := Char.ofNat 96

/-- Does the scan position start with three literal backticks? -/
def startsTicks : List Char → Bool
  | c1 :: c2 :: c3 :: _ => c1 = backtick && c2 = backtick && c3 = backtick
  | _ => false

/-- Lazy search for the closing triple backtick of the regex
fragment `([\\s\\S]*?)` followed by three literal backticks: returns the body
before the earliest occurrence and the text after it, or `none` when the
fence never closes. -/
def splitAtTicks : List Char → Option (List Char × List Char)
  | [] => none
  | c :: rest =>
    if startsTicks (c :: rest) then some ([], rest.drop 2)
    else (splitAtTicks rest).map (fun p => (c :: p.1, p.2))

/-- Completes a regex match after an opening triple backtick: the optional
greedy language tag `(\\w+)?`, greedy whitespace `\\s*`, then the lazy body up
to the closing triple backtick. Returns `(tag, body, rest)`. -/
def matchAfterTicks (cs : List Char) : Option (List Char × List Char × List Char) :=
  let tagRun := cs.takeWhile isWordChar
  let afterSpace := (cs.dropWhile isWordChar).dropWhile isJsSpace
  (splitAtTicks afterSpace).map (fun p => (tagRun, p.1, p.2))

/-- One attempt of the regex at the current position `c :: rest`: succeeds
only when the position starts with three literal backticks and the remainder
completes a match. -/
def tryOpen (c : Char) (rest : List Char) : Option (List Char × List Char × List Char) :=
  if startsTicks (c :: rest) then matchAfterTicks (rest.drop 2) else none

/-- Leftmost match of the fence regex, as a global regex engine finds it:
try each position left to right. Returns `(textBefore, tag, body, rest)`. -/
def findFence : List Char → Option (List Char × List Char × List Char × List Char)
  | [] => none
  | c :: rest =>
    match tryOpen c rest with
    | some (tag, body, after) => some ([], tag, body, after)
    | none => (findFence rest).map (fun x => (c :: x.1, x.2.1, x.2.2.1, x.2.2.2))

theorem dropWhile_length_le (p : Char → Bool) :
    ∀ l : List Char, (l.dropWhile p).length ≤ l.length := by
  intro l
  induction l with
  | nil => simp [List.dropWhile]
  | cons c rest ih =>
    by_cases hc : p c
    · simp only [List.dropWhile, hc]
      exact Nat.le_succ_of_le ih
    · simp only [List.dropWhile, hc]
      exact Nat.le_refl _

theorem splitAtTicks_length_lt :
    ∀ cs b a, splitAtTicks cs = some (b, a) → a.length < cs.length := by
  intro cs
  induction cs with
  | nil => intro b a h; simp [splitAtTicks] at h
  | cons c rest ih =>
    intro b a h
    rw [splitAtTicks] at h
    split at h
    · rw [Option.some.injEq, Prod.mk.injEq] at h
      obtain ⟨h1, h2⟩ := h
      subst h2
      simp only [List.length_drop, List.length_cons]
      omega
    · rw [Option.map_eq_some'] at h
      obtain ⟨p, hp, hpe⟩ := h
      obtain ⟨p1, p2⟩ := p
      simp only [Prod.mk.injEq] at hpe
      obtain ⟨h1, h2⟩ := hpe
      subst h2
      have := ih p1 p2 hp
      simp only [List.length_cons]
      omega

theorem matchAfterTicks_length_lt :
    ∀ cs t b a, matchAfterTicks cs = some (t, b, a) → a.length < cs.length := by
  intro cs t b a h
  rw [matchAfterTicks] at h
  simp only [Option.map_eq_some'] at h
  obtain ⟨p, hp, hpe⟩ := h
  obtain ⟨p1, p2⟩ := p
  simp only [Prod.mk.injEq] at hpe
  obtain ⟨ht, hb, ha⟩ := hpe
  subst ha
  have h1 := splitAtTicks_length_lt _ _ _ hp
  have h2 : ((cs.dropWhile isWordChar).dropWhile isJsSpace).length ≤ (cs.dropWhile isWordChar).length :=
    dropWhile_length_le _ _
  have h3 : (cs.dropWhile isWordChar).length ≤ cs.length := dropWhile_length_le _ _
  omega

theorem tryOpen_length_lt :
    ∀ c rest t b a, tryOpen c rest = some (t, b, a) → a.length < (c :: rest).length := by
  intro c rest t b a h
  rw [tryOpen] at h
  by_cases hs : startsTicks (c :: rest)
  · simp [hs] at h
    have h1 := matchAfterTicks_length_lt _ _ _ _ h
    have h2 : (rest.drop 2).length ≤ rest.length := by
      simp [List.length_drop]
    simp only [List.length_cons]
    omega
  · simp [hs] at h

theorem findFence_after_lt :
    ∀ cs pre tag body rest, findFence cs = some (pre, tag, body, rest) →
      rest.length < cs.length := by
  intro cs
  induction cs with
  | nil => intro pre tag body rest h; simp [findFence] at h
  | cons c cs0 ih =>
    intro pre tag body rest h
    rw [findFence] at h
    cases htry : tryOpen c cs0 with
    | some x =>
      obtain ⟨t, b, a⟩ := x
      rw [htry] at h
      rw [Option.some.injEq, Prod.mk.injEq, Prod.mk.injEq, Prod.mk.injEq] at h
      obtain ⟨h1, h2, h3, h4⟩ := h
      subst h4
      exact tryOpen_length_lt c cs0 t b a htry
    | none =>
      rw [htry] at h
      rw [Option.map_eq_some'] at h
      obtain ⟨x, hx, hfx⟩ := h
      obtain ⟨p1, p2, p3, p4⟩ := x
      simp only [Prod.mk.injEq] at hfx
      obtain ⟨h1, h2, h3, h4⟩ := hfx
      subst h4
      have := ih p1 p2 p3 p4 hx
      simp only [List.length_cons]
      omega

/-- The `detectCodeBlocks` scan over the character list: emit the text before
each match (when non-empty), then the code segment with the default `text`
language tag and trimmed body, then continue after the match; trailing
characters after the last match become a final text segment. -/
def scanBlocks (cs : List Char) : List Segment :=
  match h : findFence cs with
  | some (pre, tag, body, rest) =>
    (if pre.isEmpty then [] else [Segment.text pre.asString]) ++
    Segment.code (if tag.isEmpty then "text" else tag.asString) (jsTrim body).asString ::
    scanBlocks rest
  | none => if cs.isEmpty then [] else [Segment.text cs.asString]
termination_by cs.length
decreasing_by exact findFence_after_lt cs pre tag body rest h

/-- `detectCodeBlocks(text)` from `SearchChatApp.jsx`. -/
def detectCodeBlocks (text : String) : List Segment :=
  scanBlocks text.data

/-- The successive `(language tag, raw body)` captures of the global regex,
in match order: the matched fenced regions of the input. -/
def fenceMatches (cs : List Char) : List (List Char × List Char) :=
  match h : findFence cs with
  | some (_, tag, body, rest) => (tag, body) :: fenceMatches rest
  | none => []
termination_by cs.length
decreasing_by exact findFence_after_lt cs _ tag body rest h

/-- Projection selecting the code segments of the output, with their
language and content. -/
def codeOf : Segment → Option (String × String)
  | .code lang content => some (lang, content)
  | .text _ => none

/-- Language assigned to a matched fence: the captured tag, or the generic
`text` tag when the fence gives none (`lang || 'text'`). -/
def fenceLang (tag : List Char) : String :=
  if tag.isEmpty then "text" else tag.asString

theorem scanBlocks_filterMap_code (n : Nat) :
    ∀ cs : List Char, cs.length ≤ n →
      (scanBlocks cs).filterMap codeOf =
        (fenceMatches cs).map (fun tb => (fenceLang tb.1, (jsTrim tb.2).asString)) := by
  induction n with
  | zero =>
    intro cs hlen
    have hcs : cs = [] := List.eq_nil_of_length_eq_zero (Nat.le_zero.mp hlen)
    subst hcs
    rw [scanBlocks.eq_def, fenceMatches.eq_def]
    simp [findFence]
  | succ n ih =>
    intro cs hlen
    rw [scanBlocks.eq_def, fenceMatches.eq_def]
    cases hf : findFence cs with
    | none =>
      cases cs <;> simp [codeOf]
    | some q =>
      obtain ⟨pre, tag, body, rest⟩ := q
      have hrest : rest.length ≤ n := by
        have := findFence_after_lt cs pre tag body rest hf
        omega
      have := ih rest hrest
      by_cases hp : pre.isEmpty <;>
        simp [hp, codeOf, fenceLang, this]

/-- C9: for every matched fenced region of the input, `detectCodeBlocks`
emits a `Segment.code` whose language equals the fence's language tag when
one is given (the generic `text` tag otherwise) and whose content is the
fence body trimmed of leading and trailing whitespace; the code segments of
the output are exactly the matched regions so rendered, in order. -/
theorem detectCodeBlocks_code_segments (s : String) :
    (detectCodeBlocks s).filterMap codeOf =
      (fenceMatches s.data).map (fun tb => (fenceLang tb.1, (jsTrim tb.2).asString)) :=
  scanBlocks_filterMap_code s.data.length s.data (Nat.le_refl _)

/-- C3: an input string on which the fence regex never matches yields
exactly one Text segment equal to the input, and the empty input yields the
empty sequence. -/
theorem detectCodeBlocks_no_fence (s : String) (h : findFence s.data = none) :
    detectCodeBlocks s = if s = "" then [] else [Segment.text s] := by
  rw [detectCodeBlocks, scanBlocks.eq_def, h]
  cases s with
  | mk l =>
    cases l with
    | nil => simp
    | cons c cs => simp [List.asString, String.ext_iff]

/-- Concrete instance of `detectCodeBlocks_no_fence` at the fence-free
input `hello`. -/
theorem detectCodeBlocks_no_fence_witness :
    findFence (String.data "hello") = none ∧
      detectCodeBlocks "hello" = if "hello" = "" then [] else [Segment.text "hello"] :=
  ⟨by decide, detectCodeBlocks_no_fence "hello" (by decide)⟩

/-- A JavaScript `Date`, carrying its epoch-millisecond value (`getTime`). -/
structure JsDate where
  millis : Nat
deriving DecidableEq, Repr

/-- One normalized web-search result: `{title, snippet, link}`. -/
structure SearchResult where
  title : String
  snippet : String
  link : String
deriving DecidableEq, Repr

/-- One entry of the conversation log, as built by the component:
`{type, content, timestamp, showTime}` plus the optional `searchResults`
list present only on augmented assistant messages. `type` is the literal
role string, `'user'` or `'ai'`. -/
structure Message where
  type : String
  content : String
  timestamp : JsDate
  showTime : Bool
  searchResults : Option (List SearchResult) := none
deriving DecidableEq, Repr

/-- A message as serialized by `saveMessagesToStorage`: the same fields with
`timestamp` replaced by its epoch-millisecond value (`getTime()`). -/
structure StoredMessage where
  type : String
  content : String
  timestamp : Nat
  showTime : Bool
  searchResults : Option (List SearchResult) := none
deriving DecidableEq, Repr

/-- The value held under the single `localStorage` key
`weyai_chat_history`: either a well-formed `{messages, timestamp}` snapshot
or bytes on which `JSON.parse`/destructuring throws. -/
inductive StoredEntry where
  | good (messages : List StoredMessage) (timestamp : Nat)
  | corrupt
deriving DecidableEq, Repr

/-- `CHAT_STORAGE_KEY`: the single storage key used by the component. -/
def CHAT_STORAGE_KEY : String := "weyai_chat_history"

/-- `EXPIRATION_TIME`: 24 hours in milliseconds. -/
def EXPIRATION_TIME : Nat := 24 * 60 * 60 * 1000

/-- `loadMessagesFromStorage()`: reads the stored entry, deletes it and
returns `null` when it is older than the expiration window, rehydrates each
message's timestamp via `new Date(ms)` otherwise; a missing entry or a
deserialization error returns `null` (the error path leaves storage as it
was). Returns the result together with the storage state after the call. -/
def loadMessagesFromStorage (storage : Option StoredEntry) (now : Nat) :
    Option (List Message) × Option StoredEntry :=
  match storage with
  | none => (none, none)
  | some .corrupt => (none, some .corrupt)
  | some (.good msgs ts) =>
    if now - ts > EXPIRATION_TIME then
      (none, none)
    else
      (some (msgs.map (fun m =>
        { type := m.type, content := m.content, timestamp := ⟨m.timestamp⟩,
          showTime := m.showTime, searchResults := m.searchResults })),
       some (.good msgs ts))

/-- `saveMessagesToStorage(messages)`: overwrites the stored entry with the
full message list, each timestamp serialized via `getTime()`, stamped with
the current time `Date.now()`. -/
def saveMessagesToStorage (messages : List Message) (now : Nat) : StoredEntry :=
  .good (messages.map (fun m =>
    { type := m.type, content := m.content, timestamp := m.timestamp.millis,
      showTime := m.showTime, searchResults := m.searchResults })) now

/-- The seeded assistant greeting of `SearchChatApp`. -/
def greetingMessage (t : JsDate) : Message :=
  { type := "ai",
    content := "Hello! Welcome to <b>WeyAI</b>! Ask me anything and I\x27ll search for answers.",
    timestamp := t, showTime := false }

/-- UI state of the component relevant to the conversation core. -/
structure AppState where
  messages : List Message
  inputValue : String
  isLoading : Bool
deriving DecidableEq, Repr

/-- `clearChatHistory()`: removes the persisted entry and resets the log to
the single seeded greeting. Returns the new state and the new storage. -/
def clearChatHistory (st : AppState) (now : JsDate) :
    AppState × Option StoredEntry :=
  ({ st with messages := [greetingMessage now] }, none)

/-- `toggleTimeVisibility(index)`: flip the `showTime` flag of the message
at `index`, keeping every other message as it is. -/
def toggleTimeVisibility (index : Nat) (messages : List Message) : List Message :=
  messages.mapIdx (fun i msg =>
    if i = index then { msg with showTime := !msg.showTime } else msg)

/-- One raw item of the search collaborator's `items` array (the three
fields the component projects out). -/
structure RawSearchItem where
  title : String
  snippet : String
  link : String
deriving DecidableEq, Repr

/-- Fields extracted from the search collaborator's JSON body:
`data.knowledgeGraph?.description` and `data.items` (either may be absent). -/
structure RawSearchData where
  knowledgeGraphDescription : Option String
  items : Option (List RawSearchItem)
deriving DecidableEq, Repr

/-- Normalized output of `searchGoogle`: the optional direct answer and the
capped result list. -/
structure SearchResponse where
  directAnswer : Option String
  results : List SearchResult
deriving DecidableEq, Repr

/-- `searchGoogle(query)`: a fetch fault, a non-success status or a parse
fault is rethrown as `Search failed: <reason>`; on success the optional
knowledge-graph description becomes `directAnswer` (`description || null`,
so an empty description becomes absent) and at most the first three items
are taken verbatim (`items?.slice(0, 3).map(...) || []`). -/
def searchGoogle (fetched : Except String RawSearchData) :
    Except String SearchResponse :=
  match fetched with
  | .error msg => .error ("Search failed: " ++ msg)
  | .ok data =>
    .ok { directAnswer :=
            match data.knowledgeGraphDescription with
            | some d => if d = "" then none else some d
            | none => none,
          results := ((data.items.getD []).take 3).map (fun item =>
            { title := item.title, snippet := item.snippet, link := item.link }) }

/-- `askAI(query)`: a fetch fault or non-success status is rethrown as
`AI request failed: <reason>`; on success the first generated completion is
returned trimmed (`data.generations[0].text.trim()`). -/
def askAI (fetched : Except String String) : Except String String :=
  match fetched with
  | .error msg => .error ("AI request failed: " ++ msg)
  | .ok text => .ok (jsTrimString text)

/-- The augmentation trigger: the completion contains a marker substring,
`aiResponse.includes("I don't know") || aiResponse.includes("I can't help")`. -/
def containsMarker (aiResponse : String) : Bool :=
  jsIncludes aiResponse "I don\x27t know" || jsIncludes aiResponse "I can\x27t help"

/-- JavaScript `v || fallback` on an optional string: the fallback is used
when the value is absent or empty (falsy). -/
def jsOrElse (v : Option String) (fallback : String) : String :=
  match v with
  | some d => if d = "" then fallback else d
  | none => fallback

/-- `handleSubmit` of `SearchChatApp.jsx`. `tUser`, `tAi`, `tWeb` and `tErr`
are the `new Date()` values at each message-creation point; `aiResult` is
the outcome of `await askAI(trimmedInput)` and `searchOutcome` that of
`await searchGoogle(trimmedInput)` (consulted only on the marker path).
Returns the component state when the handler settles. -/
def handleSubmit (st : AppState) (aiResult : Except String String)
    (searchOutcome : Except String SearchResponse)
    (tUser tAi tWeb tErr : JsDate) : AppState :=
  let trimmedInput := jsTrimString st.inputValue
  if trimmedInput = "" || st.isLoading then st
  else
    let userMessage : Message :=
      { type := "user", content := trimmedInput, timestamp := tUser, showTime := false }
    let st1 : AppState :=
      { st with messages := st.messages ++ [userMessage], inputValue := "",
                isLoading := true }
    let st2 : AppState :=
      match aiResult with
      | .error emsg =>
        { st1 with messages := st1.messages ++
            [{ type := "ai", content := "Error: " ++ emsg, timestamp := tErr,
               showTime := false }] }
      | .ok aiResponse =>
        let st1b : AppState :=
          { st1 with messages := st1.messages ++
              [{ type := "ai", content := aiResponse, timestamp := tAi,
                 showTime := false }] }
        if containsMarker aiResponse then
          match searchOutcome with
          | .error emsg =>
            { st1b with messages := st1b.messages ++
                [{ type := "ai", content := "Error: " ++ emsg, timestamp := tErr,
                   showTime := false }] }
          | .ok sr =>
            if sr.results.length > 0 then
              { st1b with messages := st1b.messages ++
                  [{ type := "ai",
                     content := jsOrElse sr.directAnswer
                       ("Here are results for \x22" ++ trimmedInput ++ "\x22:"),
                     timestamp := tWeb, showTime := false,
                     searchResults := some sr.results }] }
            else st1b
        else st1b
    { st2 with isLoading := false }

/-- `handleSubmit` of the earlier unnamed variant of the component: the
augmented message always carries the caption (never the direct answer), a
search that succeeds with zero results throws `No results found`, and every
caught error is rendered as `Error: <message>. Please try again.`. -/
def handleSubmitV0 (st : AppState) (aiResult : Except String String)
    (searchOutcome : Except String SearchResponse)
    (tUser tAi tWeb tErr : JsDate) : AppState :=
  let trimmedInput := jsTrimString st.inputValue
  if trimmedInput = "" || st.isLoading then st
  else
    let userMessage : Message :=
      { type := "user", content := trimmedInput, timestamp := tUser, showTime := false }
    let st1 : AppState :=
      { st with messages := st.messages ++ [userMessage], inputValue := "",
                isLoading := true }
    let st2 : AppState :=
      match aiResult with
      | .error emsg =>
        { st1 with messages := st1.messages ++
            [{ type := "ai", content := "Error: " ++ emsg ++ ". Please try again.",
               timestamp := tErr, showTime := false }] }
      | .ok aiResponse =>
        let st1b : AppState :=
          { st1 with messages := st1.messages ++
              [{ type := "ai", content := aiResponse, timestamp := tAi,
                 showTime := false }] }
        if containsMarker aiResponse then
          match searchOutcome with
          | .error emsg =>
            { st1b with messages := st1b.messages ++
                [{ type := "ai", content := "Error: " ++ emsg ++ ". Please try again.",
                   timestamp := tErr, showTime := false }] }
          | .ok sr =>
            if sr.results.length > 0 then
              { st1b with messages := st1b.messages ++
                  [{ type := "ai",
                     content := "Here are the results for \x22" ++ trimmedInput ++ "\x22:",
                     timestamp := tWeb, showTime := false,
                     searchResults := some sr.results }] }
            else
              { st1b with messages := st1b.messages ++
                  [{ type := "ai",
                     content := "Error: No results found. Please try again.",
                     timestamp := tErr, showTime := false }] }
        else st1b
    { st2 with isLoading := false }

theorem storedMessage_roundtrip (l : List Message) :
    (l.map (fun m =>
      ({ type := m.type, content := m.content, timestamp := m.timestamp.millis,
         showTime := m.showTime, searchResults := m.searchResults } : StoredMessage))).map
      (fun m =>
        ({ type := m.type, content := m.content, timestamp := ⟨m.timestamp⟩,
           showTime := m.showTime, searchResults := m.searchResults } : Message)) = l := by
  induction l with
  | nil => rfl
  | cons m r ih =>
    simp only [List.map_cons]
    rw [ih]

/-- C2: saving a message list and loading it again within the 24-hour
expiration window returns exactly the saved list: same length and order
and, for each message, the same role, content, searchResults, showTime and
millisecond timestamp. -/
theorem save_load_roundtrip (messages : List Message) (tSave tLoad : Nat)
    (h : tLoad - tSave ≤ EXPIRATION_TIME) :
    (loadMessagesFromStorage (some (saveMessagesToStorage messages tSave)) tLoad).1 =
      some messages := by
  rw [saveMessagesToStorage, loadMessagesFromStorage, if_neg (by omega)]
  exact congrArg some (storedMessage_roundtrip messages)

/-- Concrete instance of `save_load_roundtrip`: one message saved at time 0
and loaded at time 1000. -/
theorem save_load_roundtrip_witness :
    1000 - 0 ≤ EXPIRATION_TIME ∧
    (loadMessagesFromStorage
        (some (saveMessagesToStorage [greetingMessage ⟨5⟩] 0)) 1000).1 =
      some [greetingMessage ⟨5⟩] :=
  ⟨by decide, save_load_roundtrip [greetingMessage ⟨5⟩] 0 1000 (by decide)⟩

/-- C4: a snapshot saved more than 24 hours ago loads as absent and the
entry is deleted, so an immediately subsequent load is also absent; a
missing entry or a deserialization error yields absent as well. -/
theorem load_expired_absent (stored : List StoredMessage) (ts now now2 : Nat)
    (h : now - ts > EXPIRATION_TIME) :
    loadMessagesFromStorage (some (.good stored ts)) now = (none, none) ∧
    (loadMessagesFromStorage
        (loadMessagesFromStorage (some (.good stored ts)) now).2 now2).1 = none ∧
    (loadMessagesFromStorage none now2).1 = none ∧
    (loadMessagesFromStorage (some .corrupt) now2).1 = none := by
  have h1 : loadMessagesFromStorage (some (.good stored ts)) now = (none, none) := by
    rw [loadMessagesFromStorage, if_pos h]
  exact ⟨h1, by rw [h1]; rfl, rfl, rfl⟩

/-- Concrete instance of `load_expired_absent`: an empty snapshot saved at
time 0 and loaded one millisecond past the 24-hour window. -/
theorem load_expired_absent_witness :
    86400001 - 0 > EXPIRATION_TIME ∧
    (loadMessagesFromStorage (some (.good [] 0)) 86400001 = (none, none) ∧
     (loadMessagesFromStorage
        (loadMessagesFromStorage (some (.good [] 0)) 86400001).2 7).1 = none ∧
     (loadMessagesFromStorage none 7).1 = none ∧
     (loadMessagesFromStorage (some .corrupt) 7).1 = none) :=
  ⟨by decide, load_expired_absent [] 0 86400001 7 (by decide)⟩

/-- C8: clearing the history from any state resets the log to exactly the
one seeded greeting and removes the persisted entry, so that a subsequent
load returns absent. -/
theorem clearChatHistory_resets (st : AppState) (now : JsDate) (tLoad : Nat) :
    (clearChatHistory st now).1.messages = [greetingMessage now] ∧
    (clearChatHistory st now).2 = none ∧
    (loadMessagesFromStorage (clearChatHistory st now).2 tLoad).1 = none :=
  ⟨rfl, rfl, rfl⟩

/-- C10: toggling the timestamp display at an index negates only that
message's `showTime` flag: list length and order are kept, and every field
of every message other than the toggled flag is unchanged. -/
theorem toggleTimeVisibility_frame (messages : List Message) (index j : Nat) :
    (toggleTimeVisibility index messages).length = messages.length ∧
    (toggleTimeVisibility index messages)[j]? =
      (messages[j]?).map (fun m =>
        if j = index then { m with showTime := !m.showTime } else m) := by
  constructor
  · simp [toggleTimeVisibility]
  · simp [toggleTimeVisibility, List.getElem?_mapIdx]

/-- C6: submitting while a response is pending, or with input that is blank
after trimming, is a no-op in both variants: the log, the input and the
pending flag are returned unchanged whatever the collaborators would have
answered, and the snapshot persistence would write is unchanged too. -/
theorem handleSubmit_noop (st : AppState) (ai : Except String String)
    (search : Except String SearchResponse) (tU tA tW tE : JsDate) (now : Nat)
    (h : st.isLoading = true ∨ jsTrimString st.inputValue = "") :
    handleSubmit st ai search tU tA tW tE = st ∧
    handleSubmitV0 st ai search tU tA tW tE = st ∧
    saveMessagesToStorage (handleSubmit st ai search tU tA tW tE).messages now =
      saveMessagesToStorage st.messages now := by
  have h1 : handleSubmit st ai search tU tA tW tE = st := by
    rw [handleSubmit]
    rcases h with h | h <;> simp [h]
  have h2 : handleSubmitV0 st ai search tU tA tW tE = st := by
    rw [handleSubmitV0]
    rcases h with h | h <;> simp [h]
  exact ⟨h1, h2, by rw [h1]⟩

/-- Concrete instance of `handleSubmit_noop`: a submission made while a
prior submission is still loading. -/
theorem handleSubmit_noop_witness :
    ({ messages := [], inputValue := "q", isLoading := true } : AppState).isLoading = true ∧
    (handleSubmit { messages := [], inputValue := "q", isLoading := true }
        (.error "net") (.error "net") ⟨0⟩ ⟨0⟩ ⟨0⟩ ⟨0⟩ =
      { messages := [], inputValue := "q", isLoading := true } ∧
     handleSubmitV0 { messages := [], inputValue := "q", isLoading := true }
        (.error "net") (.error "net") ⟨0⟩ ⟨0⟩ ⟨0⟩ ⟨0⟩ =
      { messages := [], inputValue := "q", isLoading := true } ∧
     saveMessagesToStorage
        (handleSubmit { messages := [], inputValue := "q", isLoading := true }
          (.error "net") (.error "net") ⟨0⟩ ⟨0⟩ ⟨0⟩ ⟨0⟩).messages 3 =
      saveMessagesToStorage
        ({ messages := [], inputValue := "q", isLoading := true } : AppState).messages 3) :=
  ⟨rfl, handleSubmit_noop { messages := [], inputValue := "q", isLoading := true }
    (.error "net") (.error "net") ⟨0⟩ ⟨0⟩ ⟨0⟩ ⟨0⟩ 3 (Or.inl rfl)⟩

/-- C7: when the Responder fails, the log gains the user message plus
exactly one assistant message whose content has the form
`Error: <description>`, and the controller returns to Idle. -/
theorem handleSubmit_responder_failure (st : AppState) (emsg : String)
    (search : Except String SearchResponse) (tU tA tW tE : JsDate)
    (hIdle : st.isLoading = false) (hInput : jsTrimString st.inputValue ≠ "") :
    handleSubmit st (askAI (.error emsg)) search tU tA tW tE =
      { messages := st.messages ++
          [{ type := "user", content := jsTrimString st.inputValue,
             timestamp := tU, showTime := false },
           { type := "ai", content := "Error: " ++ ("AI request failed: " ++ emsg),
             timestamp := tE, showTime := false }],
        inputValue := "", isLoading := false } := by
  rw [handleSubmit]
  simp [askAI, hIdle, hInput]

/-- Concrete instance of `handleSubmit_responder_failure`: a network fault
on the generation call. -/
theorem handleSubmit_responder_failure_witness :
    ({ messages := [], inputValue := "hi", isLoading := false } : AppState).isLoading = false ∧
    jsTrimString ({ messages := [], inputValue := "hi", isLoading := false } : AppState).inputValue ≠ "" ∧
    handleSubmit { messages := [], inputValue := "hi", isLoading := false }
        (askAI (.error "network down")) (.error "x") ⟨1⟩ ⟨2⟩ ⟨3⟩ ⟨4⟩ =
      { messages := [] ++
          [{ type := "user", content := jsTrimString "hi",
             timestamp := ⟨1⟩, showTime := false },
           { type := "ai",
             content := "Error: " ++ ("AI request failed: " ++ "network down"),
             timestamp := ⟨4⟩, showTime := false }],
        inputValue := "", isLoading := false } :=
  ⟨rfl, by decide,
   handleSubmit_responder_failure { messages := [], inputValue := "hi", isLoading := false }
     "network down" (.error "x") ⟨1⟩ ⟨2⟩ ⟨3⟩ ⟨4⟩ rfl (by decide)⟩

theorem searchGoogle_ok_no_empty_answer (raw : RawSearchData) (sr : SearchResponse)
    (h : searchGoogle (.ok raw) = .ok sr) : sr.directAnswer ≠ some "" := by
  rw [searchGoogle] at h
  rw [Except.ok.injEq] at h
  subst h
  cases hkg : raw.knowledgeGraphDescription with
  | none => simp [hkg]
  | some d =>
    by_cases hd : d = "" <;> simp [hkg, hd]

/-- C1: a completion that contains a marker substring, followed by a search
that succeeds with at least one result, appends exactly one additional
assistant message carrying the result list, whose content is the direct
answer when one is present and the generic caption naming the query
otherwise. -/
theorem handleSubmit_marker_results (st : AppState) (aiResponse : String)
    (raw : RawSearchData) (sr : SearchResponse) (tU tA tW tE : JsDate)
    (hIdle : st.isLoading = false) (hInput : jsTrimString st.inputValue ≠ "")
    (hMarker : containsMarker aiResponse = true)
    (hSearch : searchGoogle (.ok raw) = .ok sr)
    (hRes : sr.results ≠ []) :
    handleSubmit st (.ok aiResponse) (searchGoogle (.ok raw)) tU tA tW tE =
      { messages := st.messages ++
          [{ type := "user", content := jsTrimString st.inputValue,
             timestamp := tU, showTime := false },
           { type := "ai", content := aiResponse, timestamp := tA, showTime := false },
           { type := "ai",
             content :=
               match sr.directAnswer with
               | some d => d
               | none => "Here are results for \x22" ++ jsTrimString st.inputValue ++ "\x22:",
             timestamp := tW, showTime := false,
             searchResults := some sr.results }],
        inputValue := "", isLoading := false } := by
  have hlen : sr.results.length > 0 := List.length_pos.mpr hRes
  have hda := searchGoogle_ok_no_empty_answer raw sr hSearch
  rw [handleSubmit, hSearch]
  cases hd : sr.directAnswer with
  | none => simp [hIdle, hInput, hMarker, hlen, jsOrElse, hd]
  | some d =>
    have hde : d ≠ "" := by
      intro hcontra
      exact hda (by rw [hd, hcontra])
    simp [hIdle, hInput, hMarker, hlen, jsOrElse, hd, hde]

/-- Concrete instance of `handleSubmit_marker_results`: the completion
`I don't know` with one search result and no knowledge-graph answer. -/
theorem handleSubmit_marker_results_witness :
    ({ messages := [], inputValue := "q", isLoading := false } : AppState).isLoading = false ∧
    jsTrimString "q" ≠ "" ∧
    containsMarker "I don\x27t know" = true ∧
    searchGoogle (.ok { knowledgeGraphDescription := none,
                        items := some [{ title := "t", snippet := "s", link := "l" }] }) =
      .ok { directAnswer := none,
            results := [{ title := "t", snippet := "s", link := "l" }] } ∧
    ({ directAnswer := none,
       results := [{ title := "t", snippet := "s", link := "l" }] } : SearchResponse).results ≠ [] ∧
    handleSubmit { messages := [], inputValue := "q", isLoading := false }
        (.ok "I don\x27t know")
        (searchGoogle (.ok { knowledgeGraphDescription := none,
                             items := some [{ title := "t", snippet := "s", link := "l" }] }))
        ⟨1⟩ ⟨2⟩ ⟨3⟩ ⟨4⟩ =
      { messages := [] ++
          [{ type := "user", content := jsTrimString "q",
             timestamp := ⟨1⟩, showTime := false },
           { type := "ai", content := "I don\x27t know", timestamp := ⟨2⟩, showTime := false },
           { type := "ai",
             content :=
               match (none : Option String) with
               | some d => d
               | none => "Here are results for \x22" ++ jsTrimString "q" ++ "\x22:",
             timestamp := ⟨3⟩, showTime := false,
             searchResults := some [{ title := "t", snippet := "s", link := "l" }] }],
        inputValue := "", isLoading := false } :=
  ⟨rfl, by decide, by decide, rfl, by decide,
   handleSubmit_marker_results { messages := [], inputValue := "q", isLoading := false }
     "I don\x27t know"
     { knowledgeGraphDescription := none,
       items := some [{ title := "t", snippet := "s", link := "l" }] }
     { directAnswer := none, results := [{ title := "t", snippet := "s", link := "l" }] }
     ⟨1⟩ ⟨2⟩ ⟨3⟩ ⟨4⟩ rfl (by decide) (by decide) rfl (by decide)⟩

/-- C5: on a marker completion whose search succeeds with zero results, the
current component silently completes with no additional message, while the
earlier variant raises `No results found` and surfaces it as exactly one
assistant error message; the final log is pinned down exactly in both
variants, so no third behaviour is possible. -/
theorem handleSubmit_zero_results (st : AppState) (aiResponse : String)
    (sr : SearchResponse) (tU tA tW tE : JsDate)
    (hIdle : st.isLoading = false) (hInput : jsTrimString st.inputValue ≠ "")
    (hMarker : containsMarker aiResponse = true)
    (hRes : sr.results = []) :
    handleSubmit st (.ok aiResponse) (.ok sr) tU tA tW tE =
      { messages := st.messages ++
          [{ type := "user", content := jsTrimString st.inputValue,
             timestamp := tU, showTime := false },
           { type := "ai", content := aiResponse, timestamp := tA, showTime := false }],
        inputValue := "", isLoading := false } ∧
    handleSubmitV0 st (.ok aiResponse) (.ok sr) tU tA tW tE =
      { messages := st.messages ++
          [{ type := "user", content := jsTrimString st.inputValue,
             timestamp := tU, showTime := false },
           { type := "ai", content := aiResponse, timestamp := tA, showTime := false },
           { type := "ai", content := "Error: No results found. Please try again.",
             timestamp := tE, showTime := false }],
        inputValue := "", isLoading := false } := by
  constructor
  · rw [handleSubmit]
    simp [hIdle, hInput, hMarker, hRes]
  · rw [handleSubmitV0]
    simp [hIdle, hInput, hMarker, hRes]

/-- Concrete instance of `handleSubmit_zero_results`: the completion
`I can't help` with an empty result list. -/
theorem handleSubmit_zero_results_witness :
    ({ messages := [], inputValue := "q", isLoading := false } : AppState).isLoading = false ∧
    jsTrimString "q" ≠ "" ∧
    containsMarker "I can\x27t help" = true ∧
    ({ directAnswer := none, results := [] } : SearchResponse).results = [] ∧
    (handleSubmit { messages := [], inputValue := "q", isLoading := false }
        (.ok "I can\x27t help") (.ok { directAnswer := none, results := [] })
        ⟨1⟩ ⟨2⟩ ⟨3⟩ ⟨4⟩ =
      { messages := [] ++
          [{ type := "user", content := jsTrimString "q",
             timestamp := ⟨1⟩, showTime := false },
           { type := "ai", content := "I can\x27t help", timestamp := ⟨2⟩, showTime := false }],
        inputValue := "", isLoading := false } ∧
     handleSubmitV0 { messages := [], inputValue := "q", isLoading := false }
        (.ok "I can\x27t help") (.ok { directAnswer := none, results := [] })
        ⟨1⟩ ⟨2⟩ ⟨3⟩ ⟨4⟩ =
      { messages := [] ++
          [{ type := "user", content := jsTrimString "q",
             timestamp := ⟨1⟩, showTime := false },
           { type := "ai", content := "I can\x27t help", timestamp := ⟨2⟩, showTime := false },
           { type := "ai", content := "Error: No results found. Please try again.",
             timestamp := ⟨4⟩, showTime := false }],
        inputValue := "", isLoading := false }) :=
  ⟨rfl, by decide, by decide, rfl,
   handleSubmit_zero_results { messages := [], inputValue := "q", isLoading := false }
     "I can\x27t help" { directAnswer := none, results := [] }
     ⟨1⟩ ⟨2⟩ ⟨3⟩ ⟨4⟩ rfl (by decide) (by decide) rfl⟩
